import Mathlib

/-!
Verification development for the 410OS kernel core: the intrusive
doubly-linked queue, the synchronization primitives (OwnedLock, Mutex,
Cond), the scheduler, and the virtual-memory manager (page-entry bit
layout, address validation, range mapping, frame allocator).

Each Rust function of the repository that a claim depends on is
shallowly embedded as an executable Lean definition that follows the
source line by line.  Machine integers (u32 / usize on the 32-bit x86
target) are modelled as Nat with explicit wrap-around where the source
can overflow.  Fallible code returns Option or Except.  Code paths that
spin forever are modelled with an explicit fuel parameter.
-/

namespace K410

/-! ## Intrusive queue (src/variable_queue.rs)

Elements are identified by numeric ids.  A link slot carries the
(next, prev, inQueue) triple exactly as the Rust `Link` struct does;
null pointers are `none`.
-/

/-- One per-element link slot: `Link { next, prev, inQueue }`. -/
structure QLink where
  next : Option Nat
  prev : Option Nat
  inQueue : Bool
deriving DecidableEq, Repr

/-- The default link produced by `Link::new()`. -/
def QLink.empty : QLink := { next := none, prev := none, inQueue := false }

/-- `Head { queueFront, queueBack }` together with the link slot of every
element (the `link_name` projection of the source, one slot per id). -/
structure QState where
  front : Option Nat
  back : Option Nat
  link : Nat → QLink

/-- Replace the link slot of one element. -/
def QState.setLink (s : QState) (e : Nat) (l : QLink) : QState :=
  { s with link := fun i => if i = e then l else s.link i }

/-- `Head::insert_tail` translated literally from
src/variable_queue.rs:128-151.  Note that the source sets
`link_name(elem).prev.set(self.queueFront)` — the front pointer, not the
back pointer — before linking the old tail to the element. -/
def QState.insertTail (s : QState) (e : Nat) : QState :=
  if (s.link e).inQueue then s
  else
    let s1 := s.setLink e { next := none, prev := s.front, inQueue := false }
    let s2 :=
      match s1.back with
      | none => { s1 with front := some e, back := some e }
      | some t =>
          let s1' := s1.setLink t { s1.link t with next := some e }
          { s1' with back := some e }
    s2.setLink e { s2.link e with inQueue := true }

/-- `Head::insert_front` translated from src/variable_queue.rs:103-126. -/
def QState.insertFront (s : QState) (e : Nat) : QState :=
  if (s.link e).inQueue then s
  else
    let s1 := s.setLink e { next := s.front, prev := none, inQueue := false }
    let s2 :=
      match s1.front with
      | none => { s1 with front := some e, back := some e }
      | some f =>
          let s1' := s1.setLink f { s1.link f with prev := some e }
          { s1' with front := some e }
    s2.setLink e { s2.link e with inQueue := true }

/-- `Head::remove` translated from src/variable_queue.rs:203-230:
clear `inQueue`, then redirect the pointers of the previous and next
elements (or the head's front/back pointers). -/
def QState.remove (s : QState) (e : Nat) : QState :=
  if (s.link e).inQueue then
    let s1 := s.setLink e { s.link e with inQueue := false }
    let s2 :=
      match (s1.link e).prev with
      | none => { s1 with front := (s1.link e).next }
      | some p => s1.setLink p { s1.link p with next := (s1.link e).next }
    match (s2.link e).next with
    | none => { s2 with back := (s2.link e).prev }
    | some n => s2.setLink n { s2.link n with prev := (s2.link e).prev }
  else s

/-- A well-formed two-element queue [0, 1]: element 0 at the front,
element 1 at the back, element 2 not in any queue. -/
def twoElemQueue : QState :=
  { front := some 0
    back := some 1
    link := fun i =>
      if i = 0 then { next := some 1, prev := none, inQueue := true }
      else if i = 1 then { next := none, prev := some 0, inQueue := true }
      else QLink.empty }

/-! ## Page-entry bit constants (src/byte_utils.rs, src/virtual_memory.rs)

The target is 32-bit x86, so `u32` and `usize` are modelled as Nat
reduced mod 2^32 where wrap-around matters.
-/

/-- Bit width of usize / u32 on the target. -/
def USIZE_BITS : Nat := 32

/-- `usize::MAX` (= -1 as usize). -/
def USIZE_MAX : Nat := 2 ^ USIZE_BITS - 1

/-- Wrapping subtraction on usize, for expressions like `addr - 1`. -/
def usizeSub (a b : Nat) : Nat := (a + 2 ^ USIZE_BITS - b % 2 ^ USIZE_BITS) % 2 ^ USIZE_BITS

/-- `CONST_BIT_RANGE(start, end)` from src/byte_utils.rs:15-17:
a run of 1-bits in positions [start, end). -/
def CONST_BIT_RANGE (start stop : Nat) : Nat := (2 ^ (stop - start) - 1) * 2 ^ start

/-- `GET_BIT(word, pos)` from src/byte_utils.rs:21-23. -/
def GET_BIT (word pos : Nat) : Bool := word / 2 ^ pos % 2 ≠ 0

/-- `FILTER_BIT_RANGE(word, start, end)` from src/byte_utils.rs:38-40. -/
def FILTER_BIT_RANGE (word start stop : Nat) : Nat := word &&& CONST_BIT_RANGE start stop

/-- `GET_BIT_RANGE(word, start, end)` from src/byte_utils.rs:47-49. -/
def GET_BIT_RANGE (word start stop : Nat) : Nat := word / 2 ^ start % 2 ^ (stop - start)

/-- `PAGE_SIZE` (4096 bytes). -/
def PAGE_SIZE : Nat := 4096

/-- `PAGE_ALIGN` from src/virtual_memory.rs:29-31. -/
def PAGE_ALIGN (address : Nat) : Nat := FILTER_BIT_RANGE address 12 32

/-- src/virtual_memory.rs:52. -/
def PAGE_PRESENT_BIT : Nat := 0
/-- src/virtual_memory.rs:53 — the source defines this as 0, the same
position as the present bit. -/
def PAGE_WRITABLE_BIT : Nat := 0
/-- src/virtual_memory.rs:54 — the source defines this as 0, the same
position as the present bit. -/
def PAGE_USER_ACCESS_BIT : Nat := 0
/-- src/virtual_memory.rs:55. -/
def PAGE_GLOBAL_BIT : Nat := 8
/-- src/virtual_memory.rs:56. -/
def PAGE_COPY_ON_WRITE_BIT : Nat := 9
/-- src/virtual_memory.rs:57. -/
def PAGE_FREE_BIT : Nat := 10

/-- src/virtual_memory.rs:59. -/
def PAGE_PRESENT : Nat := 2 ^ PAGE_PRESENT_BIT
/-- src/virtual_memory.rs:60. -/
def PAGE_WRITABLE : Nat := 2 ^ PAGE_WRITABLE_BIT
/-- src/virtual_memory.rs:61. -/
def PAGE_USER_ACCESS : Nat := 2 ^ PAGE_USER_ACCESS_BIT
/-- src/virtual_memory.rs:62. -/
def PAGE_GLOBAL : Nat := 2 ^ PAGE_GLOBAL_BIT
/-- src/virtual_memory.rs:63. -/
def PAGE_COPY_ON_WRITE : Nat := 2 ^ PAGE_COPY_ON_WRITE_BIT
/-- src/virtual_memory.rs:64. -/
def PAGE_FREE : Nat := 2 ^ PAGE_FREE_BIT

/-- `PageEntry::page_accessed` from src/vm/page_entry.rs:9-11 (bit 5). -/
def pageAccessed (e : Nat) : Bool := GET_BIT e 5

/-- `PageEntry::page_address` from src/vm/page_entry.rs:21-23. -/
def pageAddress (e : Nat) : Nat := FILTER_BIT_RANGE e 12 32

/-- `PageEntry::page_is_present` from src/vm/page_entry.rs:51-53. -/
def pageIsPresent (e : Nat) : Bool := GET_BIT e PAGE_PRESENT_BIT

/-- `PageEntry::page_is_writable` from src/vm/page_entry.rs:33-35. -/
def pageIsWritable (e : Nat) : Bool := GET_BIT e PAGE_WRITABLE_BIT

/-- `PageEntry::page_is_free` from src/vm/page_entry.rs:45-47. -/
def pageIsFree (e : Nat) : Bool := GET_BIT e PAGE_FREE_BIT

/-- `PageEntry::page_is_copy_on_write` from src/vm/page_entry.rs:39-41. -/
def pageIsCopyOnWrite (e : Nat) : Bool := GET_BIT e PAGE_COPY_ON_WRITE_BIT

/-- `PageEntry::new(addr, flags)` from src/vm/page_entry.rs:63-65. -/
def mkPageEntry (addr flags : Nat) : Nat := pageAddress addr ||| flags

/-! ## Directory walk (src/vm/paging.rs, src/vm/vm_internal.rs)

A `PagingState` is one page directory (1024 entries, indexed by the
top 10 address bits) together with the physical memory holding its page
tables, modelled as a total map from table physical address and entry
index to the 32-bit entry; untouched memory reads as zero.  `freshTable`
models the heap used by `Box::try_new(PageTable::default())`: each
allocation returns the next page-aligned address and bumps it.
-/

/-- `LogicalAddress::get_page_table` from src/vm/vm_internal.rs:14-17
(bits [22,32)). -/
def getPageTableIdx (addr : Nat) : Nat := GET_BIT_RANGE addr 22 32

/-- `LogicalAddress::get_page` from src/vm/vm_internal.rs:21-24
(bits [12,22)). -/
def getPageIdx (addr : Nat) : Nat := GET_BIT_RANGE addr 12 22

/-- `LogicalAddress::get_page_offset` from src/vm/vm_internal.rs:28-31
(bits [0,12)). -/
def getPageOffset (addr : Nat) : Nat := GET_BIT_RANGE addr 0 12

/-- One page directory plus the physical memory backing its tables. -/
structure PagingState where
  dir : Nat → Nat
  tables : Nat → Nat → Nat
  freshTable : Nat

/-- `PageDirectory::tryGetPageEntry` from src/vm/paging.rs: read the
directory entry for the address; `assume_direct_mapping(...).as_ref()`
yields `None` exactly when the entry's address bits are null, otherwise
the entry at the page index inside that table. -/
def tryGetPageEntry (pg : PagingState) (addr : Nat) : Option Nat :=
  let de := pg.dir (getPageTableIdx addr)
  let ta := pageAddress de
  if ta = 0 then none else some (pg.tables ta (getPageIdx addr))

/-- Store through the pointer returned by `tryGetPageEntryMut`: write a
new value into the table entry for `addr`.  When the table is absent the
source pointer would be null; callers below only use this after a
successful `tryGetPageEntryMut`, so the absent case leaves the state
unchanged. -/
def setPageEntry (pg : PagingState) (addr v : Nat) : PagingState :=
  let de := pg.dir (getPageTableIdx addr)
  let ta := pageAddress de
  if ta = 0 then pg
  else
    { pg with
        tables := fun a i =>
          if a = ta ∧ i = getPageIdx addr then v else pg.tables a i }

/-- `PageDirectory::tryGetPage` from src/vm/paging.rs: the page pointer
for an address, null (`none`) when the table or the page address bits
are null. -/
def tryGetPage (pg : PagingState) (addr : Nat) : Option Nat :=
  match tryGetPageEntry pg addr with
  | none => none
  | some e => if pageAddress e = 0 then none else some (pageAddress e)

/-! ## Page iteration (src/virtual_memory.rs:90-121)

`foreach_page_in(start, end)` aligns `start` down and yields page
addresses while they stay below `end`; an `end` of 0 stands for
`usize::MAX`.  (The source iterator's guard references the fields
`start`, `next` and `end` of `PageIter`; it is transcribed as
`start ≤ next ∧ next < end`, the reading matched by the doc comment
"iterates over all page-aligned addresses whose pages contain addresses
in the range".) -/

/-- The loop body of `PageIter`, structurally recursive on a fuel that
bounds the number of iterations (each iteration advances `next` by a
full page, so `stop - next` steps always suffice: when the fuel runs out
the guard is already false). -/
def pageListAux (start0 stop : Nat) : Nat → Nat → List Nat
  | 0, _ => []
  | fuel + 1, next =>
      if start0 ≤ next ∧ next < stop then
        next :: pageListAux start0 stop fuel (next + PAGE_SIZE)
      else []

/-- The successive values of `PageIter`. -/
def pageListFrom (start0 next stop : Nat) : List Nat :=
  pageListAux start0 stop (stop - next) next

/-- `foreach_page_in(start, end)` from src/virtual_memory.rs:114-121. -/
def foreachPageIn (start stop : Nat) : List Nat :=
  let s := PAGE_ALIGN start
  pageListFrom s s (if stop = 0 then USIZE_MAX else stop)

/-! ## Address validation (src/vm/validate_memory.rs) -/

/-- `isPageAligned` from src/vm/validate_memory.rs:13-15. -/
def isPageAligned (addr : Nat) : Bool := addr % PAGE_SIZE = 0

/-- `getPageFlags` from src/vm/validate_memory.rs:19-24: the page entry
for `addr` in the current directory (the directory `get_cr3()` points
at, passed here explicitly). -/
def getPageFlags (pg : PagingState) (addr : Nat) : Option Nat :=
  tryGetPageEntry pg addr

/-- `isUnmappedAddr(addr, len)` from src/vm/validate_memory.rs:28-35:
every page in the range must yield `Some(entry)` with the accessed bit
clear; a missing table or entry (`None`) makes the whole check false. -/
def isUnmappedAddr (pg : PagingState) (addr len : Nat) : Bool :=
  (foreachPageIn addr (addr + len)).all fun curr =>
    match getPageFlags pg curr with
    | none => false
    | some entry => !pageAccessed entry

/-- The check C5 attributes to `is_unmapped`, written from the spec's
words ("the current directory's entry is either absent or has
accessed == 0") for comparison with `isUnmappedAddr` above. -/
def specIsUnmappedAddr (pg : PagingState) (addr len : Nat) : Bool :=
  (foreachPageIn addr (addr + len)).all fun curr =>
    match getPageFlags pg curr with
    | none => true
    | some entry => !pageAccessed entry

/-- `isUserReadableAddr` from src/vm/validate_memory.rs:39-46. -/
def isUserReadableAddr (pg : PagingState) (addr len : Nat) : Bool :=
  (foreachPageIn addr (addr + len)).all fun curr =>
    match getPageFlags pg curr with
    | none => false
    | some entry => pageIsPresent entry && GET_BIT entry PAGE_USER_ACCESS_BIT

/-- A directory whose entries are all zero: every table is absent. -/
def emptyPaging : PagingState :=
  { dir := fun _ => 0, tables := fun _ _ => 0, freshTable := 0x100000 }

/-! ## OwnedLock (src/sync/owned_lock.rs)

Threads are identified by numeric ids; a `*mut ThreadBlock` is an
`Option Nat` (`none` = null).  The state carries the status flag, the
owner pointer and the `guardCreated` cell of the Rust struct.
-/

/-- The mutable fields of `OwnedLock<T>`. -/
structure LockState where
  status : Bool
  owner : Option Nat
  guardCreated : Bool
deriving DecidableEq, Repr

/-- `OwnedLock::new`. -/
def LockState.fresh : LockState := { status := false, owner := none, guardCreated := false }

/-- The two outcomes of `OwnedLock::tryLock`. -/
inductive TryLockOutcome where
  | ok
  | err (owner : Option Nat)
deriving DecidableEq, Repr

/-- `OwnedLock::tryLock` from src/sync/owned_lock.rs:77-89, for
calling thread `current`: swap the status flag to locked and, when it
was unlocked, store the current thread as owner; then hand out a guard
only when the loaded owner equals the current thread and `guardCreated`
is still false, latching `guardCreated`. -/
def tryLock (l : LockState) (current : Option Nat) : LockState × TryLockOutcome :=
  let l1 := if l.status = false then { l with status := true, owner := current } else l
  if l1.owner = current ∧ l1.guardCreated = false then
    ({ l1 with guardCreated := true }, .ok)
  else (l1, .err l1.owner)

/-- `Drop for OwnedLockGuard` from src/sync/owned_lock.rs:173-179:
clear the owner and unlock the status flag.  `guardCreated` is not
touched. -/
def dropGuard (l : LockState) : LockState := { l with owner := none, status := false }

/-- `OwnedLockGuard::transferLockTo` from src/sync/owned_lock.rs:149-152:
store the new owner and forget the guard (status and `guardCreated` are
not touched). -/
def transferLockTo (l : LockState) (thread : Nat) : LockState := { l with owner := some thread }

/-- `OwnedLock::waitForLockWith` from src/sync/owned_lock.rs:121-141
with a wait hook that does not change the lock (the scheduler's hook is
`|t| {}`; in this single-thread semantics a yield hook also leaves the
lock unchanged).  The loop is given fuel; the inner
`while self.guardCreated.get() { wait(None) }` never exits once entered,
because the wait leaves `guardCreated` untouched, so it is rendered as
immediate non-termination (`none`). -/
def waitForLockNoopFuel : Nat → LockState → Option Nat → Option LockState
  | 0, _, _ => none
  | fuel + 1, l, current =>
      match tryLock l current with
      | (l', .ok) => some l'
      | (l', .err owner) =>
          if owner = current then
            if l'.guardCreated then none
            else waitForLockNoopFuel fuel l' current
          else waitForLockNoopFuel fuel l' current

/-! ## Mutex (src/sync/mutex.rs)

Waiter nodes are identified by numeric ids; each carries a `hasLock`
flag and a thread pointer, as `WaitListNode` does.  The mutex is the
pair of OwnedLocks plus the waitlist queue.
-/

/-- The mutable state of `Mutex<T>`, with the waitlist queue and the
per-node `WaitListNode` fields pulled out flat. -/
structure MutexState where
  waitLock : LockState
  mutexLock : LockState
  queue : QState
  hasLock : Nat → Bool
  nodeThread : Nat → Option Nat

/-- `Mutex::new`. -/
def freshMutex : MutexState :=
  { waitLock := LockState.fresh
    mutexLock := LockState.fresh
    queue := { front := none, back := none, link := fun _ => QLink.empty }
    hasLock := fun _ => false
    nodeThread := fun _ => none }

/-- `Mutex::lock` from src/sync/mutex.rs:113-188, run for thread `t`
with a fresh stack node `node` and no interference from other threads.
Acquire the waitlist lock; fast path when the waitlist is empty and the
mutex `tryLock` succeeds; otherwise tail-insert the node, release the
waitlist lock, and loop on `mutexLock.tryLock` (yielding in between,
which changes nothing here); on success, a node whose `hasLock` is still
false removes itself from the waitlist under the waitlist lock. -/
def mutexLockFuel (fuel : Nat) (m : MutexState) (t : Option Nat) (node : Nat) :
    Option MutexState :=
  let m0 := { m with
                hasLock := fun i => if i = node then false else m.hasLock i
                nodeThread := fun i => if i = node then t else m.nodeThread i }
  match waitForLockNoopFuel fuel m0.waitLock t with
  | none => none
  | some wl =>
      let m1 := { m0 with waitLock := wl }
      if m1.queue.back = none ∧ (tryLock m1.mutexLock t).2 = .ok then
        let m2 := { m1 with mutexLock := (tryLock m1.mutexLock t).1 }
        some { m2 with waitLock := dropGuard m2.waitLock }
      else
        let m2 := { m1 with mutexLock := (tryLock m1.mutexLock t).1,
                            queue := m1.queue.insertTail node }
        let m3 := { m2 with waitLock := dropGuard m2.waitLock }
        mutexSpin fuel m3 t node
where
  /-- The slow-path loop: `tryLock`, yield to the holder, retry. -/
  mutexSpin : Nat → MutexState → Option Nat → Nat → Option MutexState
    | 0, _, _, _ => none
    | fuel + 1, m, t, node =>
        match tryLock m.mutexLock t with
        | (l', .ok) =>
            let m1 := { m with mutexLock := l' }
            if m1.hasLock node = false then
              match waitForLockNoopFuel (fuel + 1) m1.waitLock t with
              | none => none
              | some wl =>
                  let m2 := { m1 with waitLock := wl, queue := m1.queue.remove node }
                  some { m2 with waitLock := dropGuard m2.waitLock }
            else some m1
        | (l', .err _) => mutexSpin fuel { m with mutexLock := l' } t node

/-- `Drop for MutexGuard` from src/sync/mutex.rs:236-268, run for the
releasing thread `t`: acquire the waitlist lock; with an empty waitlist
just drop the inner `OwnedLockGuard`; otherwise remove the front node,
release the waitlist lock, transfer the mutex lock to that node's
thread, and publish its `hasLock` flag. -/
def mutexUnlockFuel (fuel : Nat) (m : MutexState) (t : Option Nat) : Option MutexState :=
  match waitForLockNoopFuel fuel m.waitLock t with
  | none => none
  | some wl =>
      let m1 := { m with waitLock := wl }
      match m1.queue.front with
      | none =>
          let m2 := { m1 with mutexLock := dropGuard m1.mutexLock }
          some { m2 with waitLock := dropGuard m2.waitLock }
      | some nextRunner =>
          let m2 := { m1 with queue := m1.queue.remove nextRunner }
          let m3 := { m2 with waitLock := dropGuard m2.waitLock }
          match m3.nodeThread nextRunner with
          | none => none
          | some owner =>
              let m4 := { m3 with mutexLock := transferLockTo m3.mutexLock owner }
              some { m4 with hasLock := fun i => if i = nextRunner then true else m4.hasLock i }

/-! ## Scheduler (src/thread/scheduler.rs)

The run queue is an intrusive queue of thread ids over the
`scheduleLink` slot; `scheduled` is the per-TCB atomic flag; the whole
`ScheduleInner` is protected by an OwnedLock acquired through
`getSchedule`, i.e. `waitForLockWith(|t| {})`.
-/

/-- Success/failure results returned by the scheduler operations. -/
inductive OpResult where
  | ok
  | err
deriving DecidableEq, Repr

/-- `ScheduleInner` plus its OwnedLock and the per-thread scheduled
flags. -/
structure SchedState where
  lock : LockState
  next : Option Nat
  queue : QState
  scheduled : Nat → Bool

/-- The body of `getNextThread` from src/thread/scheduler.rs:57-74 once
the schedule lock is held: advance the cursor and return the previous
cursor target. -/
def getNextThreadBody (s : SchedState) : SchedState × Option Nat :=
  match s.next with
  | none => ({ s with next := s.queue.front }, none)
  | some curr =>
      match (s.queue.link curr).next with
      | none => ({ s with next := s.queue.front }, some curr)
      | some n => ({ s with next := some n }, some curr)

/-- `descheduleThread` from src/thread/scheduler.rs:115-128, run by
thread `current` on target `t`: swap the `scheduled` flag to false; if
it was set, acquire the schedule lock via `getSchedule`, remove `t` from
the ring, and when `t` was the `next` cursor call `getNextThread` —
which calls `getSchedule` again while the lock is still held, so its
`waitForLockWith` spins on the `guardCreated` latch.  `none` models that
the call never returns. -/
def descheduleThreadFuel (fuel : Nat) (s : SchedState) (current : Option Nat) (t : Nat) :
    Option (SchedState × OpResult) :=
  if s.scheduled t then
    let s1 := { s with scheduled := fun i => if i = t then false else s.scheduled i }
    match waitForLockNoopFuel fuel s1.lock current with
    | none => none
    | some l =>
        let s2 := { s1 with lock := l, queue := s1.queue.remove t }
        if s2.next = some t then
          -- getNextThread re-enters getSchedule on the already-held lock
          match waitForLockNoopFuel fuel s2.lock current with
          | none => none
          | some l' =>
              let s3 := { s2 with lock := l' }
              let s4 := (getNextThreadBody s3).1
              some ({ s4 with lock := dropGuard (dropGuard s4.lock) }, .ok)
        else
          some ({ s2 with lock := dropGuard s2.lock }, .ok)
  else
    some ({ s with scheduled := fun i => if i = t then false else s.scheduled i }, .err)

/-! ## Condition variable (src/sync/cond.rs)

Waiter nodes carry a thread pointer and the `doNotDeschedule` flag.  To
state ordering, every queue access and signal records an event.
-/

/-- Observable actions on a cond var's queue and waiters. -/
inductive CondEvent where
  | insert (n : Nat)
  | removeNode (n : Nat)
  | setFlag (n : Nat)
  | sched (t : Nat)
deriving DecidableEq, Repr

/-- The queue of a `Cond` plus the per-node `QueueNode` fields. -/
structure CondState where
  queue : QState
  doNotDeschedule : Nat → Bool
  nodeThread : Nat → Option Nat

/-- `Cond::signalAndRemoveQueueNode` from src/sync/cond.rs:185-210,
with the waitlist lock held: remove the node from the queue, then
`send_signal` its `doNotDeschedule` flag, then `scheduleThread` its
thread (skipped by `?` when the thread pointer is null). -/
def signalAndRemoveQueueNode (c : CondState) (node : Nat) : CondState × List CondEvent :=
  let c1 := { c with queue := c.queue.remove node }
  let c2 := { c1 with
                doNotDeschedule := fun i => if i = node then true else c1.doNotDeschedule i }
  match c2.nodeThread node with
  | none => (c2, [.removeNode node, .setFlag node])
  | some t => (c2, [.removeNode node, .setFlag node, .sched t])

/-- `Cond::signalCond` from src/sync/cond.rs:220-226, with the waitlist
lock held: nothing when the queue is empty, else signal the front
node. -/
def signalCond (c : CondState) : CondState × List CondEvent :=
  match c.queue.front with
  | none => (c, [])
  | some front => signalAndRemoveQueueNode c front

/-- The queue interaction of the waiter in `Cond::waitForCond`
(src/sync/cond.rs:124-172): build the node with `doNotDeschedule`
initially false, tail-insert it under the waitlist lock, and from then
on never touch the queue again — after `blockUntil` the waiter proceeds
straight to re-locking the user mutex. -/
def condWaitRegister (c : CondState) (node : Nat) (t : Option Nat) :
    CondState × List CondEvent :=
  let c1 := { c with
                doNotDeschedule := fun i => if i = node then false else c.doNotDeschedule i
                nodeThread := fun i => if i = node then t else c.nodeThread i }
  ({ c1 with queue := c1.queue.insertTail node }, [.insert node])

/-! ## Frame allocator (src/vm/frame_alloc.rs)

`FrameAllocatorInner` owns the kernel directory (a `PagingState` here)
and the region bounds; the mutex around it is not part of the claims
settled on this state, so the functions act on the inner state
directly.
-/

/-- `FrameAllocatorInner`. -/
structure FrameAlloc where
  pg : PagingState
  regionStart : Nat
  regionEnd : Nat
  currFrame : Nat
  bytesFree : Nat

/-- The marking loop of `initFrameAllocator`
(src/vm/frame_alloc.rs:52-58) iterated over the addresses
`start, start+PAGE_SIZE, ... < end`.  Each iteration reads and writes
the entry for `LogicalAddress(start)` — the loop bound, not the
iteration variable — exactly as the source does; `.unwrap()` on a
missing entry is a panic (`none`). -/
def initMarkLoop (start : Nat) : List Nat → PagingState → Option PagingState
  | [], pg => some pg
  | _ :: rest, pg =>
      match tryGetPageEntry pg start with
      | none => none
      | some e => initMarkLoop start rest (setPageEntry pg start (e ||| PAGE_FREE))

/-- `initFrameAllocator(kernelDirectory, start, end)` from
src/vm/frame_alloc.rs:44-59: set `currFrame`, the region bounds and
`bytesFree = end - start`, then run the marking loop. -/
def initFrameAllocator (pg : PagingState) (start stop : Nat) : Option FrameAlloc :=
  match initMarkLoop start (pageListFrom start start stop) pg with
  | none => none
  | some pg' =>
      some { pg := pg', currFrame := start, regionStart := start,
             regionEnd := stop, bytesFree := stop - start }

/-- The number of frames in `[regionStart, regionEnd)` whose kernel
directory entry has the FREE bit set. -/
def freeFrameCount (fa : FrameAlloc) : Nat :=
  (pageListFrom fa.regionStart fa.regionStart fa.regionEnd).countP fun f =>
    match tryGetPageEntry fa.pg f with
    | none => false
    | some e => pageIsFree e

/-- The frame-allocator invariant of claim C4: `bytes_free` equals
`PAGE_SIZE` times the number of FREE frames in the region minus the
outstanding reservations (a ghost count, in frames). -/
def frameInvariant (fa : FrameAlloc) (reservations : Nat) : Bool :=
  fa.bytesFree + PAGE_SIZE * reservations == PAGE_SIZE * freeFrameCount fa

/-- `freeFrame(frame)` from src/vm/frame_alloc.rs:71-84.  The result is
`error` when the leading `assert!(isPageAligned(frame))` fails (the call
halts there, before the allocator mutex and any state change); otherwise
`ok` with the new state and a flag telling whether the
"outside region" branch logged.  The source stores through
`tryGetPageEntryMut` without unwrapping; a missing table leaves the
entry untouched here. -/
def freeFrame (fa : FrameAlloc) (frame : Nat) : Except Unit (FrameAlloc × Bool) :=
  if ¬ isPageAligned frame then .error ()
  else if fa.regionStart ≤ frame ∧ frame < fa.regionEnd then
    let pg' :=
      match tryGetPageEntry fa.pg frame with
      | none => fa.pg
      | some e => setPageEntry fa.pg frame (e ||| PAGE_FREE)
    .ok ({ fa with pg := pg', bytesFree := fa.bytesFree + PAGE_SIZE }, false)
  else
    .ok (fa, true)

/-! ## Range mapping (src/vm/mapped_memory.rs, src/vm/memory_alloc.rs)

The `AddressMapping` strategy is reduced to its `allocAddressMapping`
operation, the only one `mapMemoryRange` reaches.  `Box::try_new` of a
page table always succeeds in this model, handing out fresh page-aligned
table addresses.
-/

/-- `PageEntry::upgradeFlags` from src/vm/mapped_memory.rs. -/
def upgradeFlags (e flags : Nat) : Nat :=
  if ¬ pageIsWritable e ∧ GET_BIT flags PAGE_WRITABLE_BIT then e ||| PAGE_WRITABLE else e

/-- `PageDirectory::insertPageTable`: write
`PageEntry::new(table, flags | PAGE_PRESENT)` at the directory index. -/
def insertPageTable (pg : PagingState) (tableAddr idx flags : Nat) : PagingState :=
  { pg with
      dir := fun i => if i = idx then mkPageEntry tableAddr (flags ||| PAGE_PRESENT) else pg.dir i }

/-- `Box::try_new(PageTable::default())`: a fresh zeroed table. -/
def newPageTable (pg : PagingState) : PagingState × Nat :=
  let ta := pg.freshTable
  ({ pg with
       freshTable := ta + PAGE_SIZE
       tables := fun a i => if a = ta then 0 else pg.tables a i }, ta)

/-- `PageDirectory::getPageTable` from src/vm/mapped_memory.rs: create
and insert a fresh table when the directory entry is not present, else
upgrade its flags; return the table address read back from the entry
(null is `none`, from the final `as_mut()`). -/
def getPageTable (pg : PagingState) (addr flags : Nat) : Option (PagingState × Nat) :=
  let idx := getPageTableIdx addr
  let e := pg.dir idx
  if ¬ pageIsPresent e then
    let (pg1, ta) := newPageTable pg
    let pg2 := insertPageTable pg1 ta idx flags
    let final := pageAddress (pg2.dir idx)
    if final = 0 then none else some (pg2, final)
  else
    let e' := upgradeFlags e flags
    let pg1 := { pg with dir := fun i => if i = idx then e' else pg.dir i }
    if pageAddress e' = 0 then none else some (pg1, pageAddress e')

/-- `PageDirectory::insertPage` from src/vm/mapped_memory.rs: when no
entry is reachable, create the table and write through it; when an entry
exists, run `getPageTable` for its flag-upgrade side effect and write
through the previously obtained entry pointer (which targets the
original table). -/
def insertPage (pg : PagingState) (page addr flags : Nat) : Option PagingState :=
  match tryGetPageEntry pg addr with
  | none =>
      match getPageTable pg addr flags with
      | none => none
      | some (pg1, _) =>
          some (setPageEntry pg1 addr (mkPageEntry page (flags ||| PAGE_PRESENT)))
  | some _ =>
      let oldTa := pageAddress (pg.dir (getPageTableIdx addr))
      let pg1 :=
        match getPageTable pg addr flags with
        | none => pg
        | some (pg', _) => pg'
      some { pg1 with
               tables := fun a i =>
                 if a = oldTa ∧ i = getPageIdx addr then mkPageEntry page (flags ||| PAGE_PRESENT)
                 else pg1.tables a i }

/-- `mapPage::<M>` from src/vm/memory_alloc.rs:31-46: allocate a frame
for the page-aligned address through the strategy, reject unaligned
frames, insert it, return the page pointer (the frame itself, these
being direct-mapped). -/
def mapPage (alloc : Nat → Option Nat) (pg : PagingState) (addr flags : Nat) :
    Option (PagingState × Nat) :=
  match alloc (PAGE_ALIGN addr) with
  | none => none
  | some frame =>
      if ¬ isPageAligned frame then none
      else
        match insertPage pg frame addr flags with
        | none => none
        | some pg' => some (pg', frame)

/-- The loop of `mapMemoryRange` from src/vm/memory_alloc.rs:88-95 as
written: the arm `None => Err(addr - 1)` produces the error value but
does not `return` it, so a failed `mapPage` is discarded and the loop
continues; only the (unreachable) unaligned-page arm returns early. -/
def mapLoop (alloc : Nat → Option Nat) (flags : Nat) :
    List Nat → PagingState → PagingState × Option Nat
  | [], pg => (pg, none)
  | addr :: rest, pg =>
      match mapPage alloc pg addr flags with
      | none => mapLoop alloc flags rest pg
      | some (pg', page) =>
          if ¬ isPageAligned page then (pg', some (usizeSub addr 1))
          else mapLoop alloc flags rest pg'

/-- `mapMemoryRange::<M>` from src/vm/memory_alloc.rs:82-103 as
written: run the loop, then look up the page for `start`; `Err(-1)`
(that is, `usize::MAX`) when absent, else
`Ok(physical page + page offset of start)`. -/
def mapMemoryRange (alloc : Nat → Option Nat) (pg : PagingState) (start stop flags : Nat) :
    PagingState × Except Nat Nat :=
  match mapLoop alloc flags (foreachPageIn start stop) pg with
  | (pg', some e) => (pg', .error e)
  | (pg', none) =>
      match tryGetPage pg' start with
      | none => (pg', .error USIZE_MAX)
      | some startPage => (pg', .ok (startPage + getPageOffset start))

/-- The loop of `map_memory_range` as its own doc comment ("Returns ...
the last address successfully mapped if something failed") and claim C6
describe it: a failed `mapPage` returns `Err(addr - 1)` immediately.
Identical to `mapLoop` except that the error is returned instead of
discarded. -/
def mapLoopIntended (alloc : Nat → Option Nat) (flags : Nat) :
    List Nat → PagingState → PagingState × Option Nat
  | [], pg => (pg, none)
  | addr :: rest, pg =>
      match mapPage alloc pg addr flags with
      | none => (pg, some (usizeSub addr 1))
      | some (pg', page) =>
          if ¬ isPageAligned page then (pg', some (usizeSub addr 1))
          else mapLoopIntended alloc flags rest pg'

/-- `mapMemoryRange` with the error-returning loop. -/
def mapMemoryRangeIntended (alloc : Nat → Option Nat) (pg : PagingState)
    (start stop flags : Nat) : PagingState × Except Nat Nat :=
  match mapLoopIntended alloc flags (foreachPageIn start stop) pg with
  | (pg', some e) => (pg', .error e)
  | (pg', none) =>
      match tryGetPage pg' start with
      | none => (pg', .error USIZE_MAX)
      | some startPage => (pg', .ok (startPage + getPageOffset start))

/-! ## Concrete states used by the theorems -/

/-- A kernel directory with one table (at physical 0x100000, all entries
zero) covering the first 4 MiB. -/
def framePg0 : PagingState :=
  { dir := fun i => if i = 0 then mkPageEntry 0x100000 PAGE_PRESENT else 0
    tables := fun _ _ => 0
    freshTable := 0x200000 }

/-- Placeholder allocator state (only used as a `getD` default). -/
def frameDummy : FrameAlloc :=
  { pg := emptyPaging, regionStart := 0, regionEnd := 0, currFrame := 0, bytesFree := 0 }

/-- The allocator state `initFrameAllocator` produces on `framePg0` for
the two-frame region [0x1000, 0x3000). -/
def frameAfterInit : FrameAlloc := (initFrameAllocator framePg0 0x1000 0x3000).getD frameDummy

/-- A mapping strategy that fails exactly on page 0x1000 and otherwise
returns distinct page-aligned frames. -/
def mapFailAlloc (a : Nat) : Option Nat := if a = 0x1000 then none else some (0x200000 + a)

/-- A schedule holding the ring [0, 1] with the cursor on thread 0 and
both threads' scheduled flags set; the schedule lock is untouched. -/
def sched0 : SchedState :=
  { lock := LockState.fresh
    next := some 0
    queue := twoElemQueue
    scheduled := fun i => i = 0 || i = 1 }

/-- The mutex state after thread 10 acquires a fresh mutex through the
fast path of `Mutex::lock` (with stack node 100). -/
def mutexAfterFirstLock : MutexState := (mutexLockFuel 5 freshMutex (some 10) 100).getD freshMutex

/-- A cond var with a single waiter: node 7 for thread 3. -/
def condDemo : CondState :=
  { queue :=
      { front := some 7
        back := some 7
        link := fun i =>
          if i = 7 then { next := none, prev := none, inQueue := true } else QLink.empty }
    doNotDeschedule := fun _ => false
    nodeThread := fun i => if i = 7 then some 3 else none }

/-! ## Helper lemmas -/

/-- Reading a link slot after `setLink`. -/
theorem QState.link_setLink (s : QState) (p e : Nat) (l : QLink) :
    ((s.setLink p l).link e) = if e = p then l else s.link e := rfl

/-- `remove` always leaves the removed element's `inQueue` flag
clear. -/
theorem QState.remove_link_inQueue (s : QState) (e : Nat) :
    ((s.remove e).link e).inQueue = false := by
  unfold QState.remove
  by_cases h : (s.link e).inQueue
  · simp only [h, if_true]
    have h1 : ((s.setLink e { s.link e with inQueue := false }).link e).inQueue = false := by
      simp [QState.link_setLink]
    generalize hs1 : s.setLink e { s.link e with inQueue := false } = s1 at h1
    rcases hp : (s1.link e).prev with _ | p
    · rcases hn : (s1.link e).next with _ | n
      · simp [hp, hn, h1]
      · simp only [hp, hn]
        by_cases hne : e = n
        · subst hne
          simp [QState.link_setLink, h1]
        · simp [QState.link_setLink, hne, h1]
    · rcases hq : ((s1.setLink p { s1.link p with next := (s1.link e).next }).link e).next
        with _ | n
      · by_cases hpe : e = p
        · subst hpe
          simp_all [QState.link_setLink]
        · simp_all [QState.link_setLink]
      · by_cases hpe : e = p
        · subst hpe
          by_cases hne : e = n
          · subst hne
            simp_all [QState.link_setLink]
          · simp_all [QState.link_setLink]
        · by_cases hne : e = n
          · subst hne
            simp_all [QState.link_setLink]
          · simp_all [QState.link_setLink]
  · simp [h]

/-! ## Claim theorems -/

/-- C1: the claim says `insert_tail(H, E); remove(H, E)` leaves the
queue unchanged for every initial length.  On the two-element queue
[0, 1] the pair of calls instead truncates the queue to [0]: the back
pointer falls back to element 0 and element 0's next pointer is cleared,
because `insert_tail` had set the new element's prev to the queue FRONT
(element 0) rather than the old tail (element 1).  This theorem
evaluates the code at that failing input. -/
theorem k410_c1_insert_tail_remove :
    ((twoElemQueue.insertTail 2).remove 2).back = some 0 ∧
    twoElemQueue.back = some 1 ∧
    (((twoElemQueue.insertTail 2).remove 2).link 0).next = none ∧
    (twoElemQueue.link 0).next = some 1 ∧
    ((twoElemQueue.insertTail 2).link 2).prev = some 0 ∧
    ((twoElemQueue.insertTail 2).remove 2).front = twoElemQueue.front := by
  refine ⟨rfl, rfl, rfl, rfl, rfl, rfl⟩

/-- C2: the claim says WRITABLE is bit 1 and USER is bit 2, pairwise
distinct from PRESENT (bit 0).  The source defines both
`PAGE_WRITABLE_BIT` and `PAGE_USER_ACCESS_BIT` as 0, so all three flag
masks collapse to 1; the GLOBAL/COPY_ON_WRITE/FREE bits and the frame
address field [12,32) do match the claimed layout. -/
theorem k410_c2_page_bit_constants :
    PAGE_PRESENT_BIT = 0 ∧
    PAGE_WRITABLE_BIT = 0 ∧
    PAGE_USER_ACCESS_BIT = 0 ∧
    PAGE_WRITABLE = PAGE_PRESENT ∧
    PAGE_USER_ACCESS = PAGE_PRESENT ∧
    PAGE_GLOBAL_BIT = 8 ∧
    PAGE_COPY_ON_WRITE_BIT = 9 ∧
    PAGE_FREE_BIT = 10 ∧
    pageAddress 0xABCD1FFF = 0xABCD1000 := by
  refine ⟨rfl, rfl, rfl, rfl, rfl, rfl, rfl, rfl, by decide⟩

/-- C3: the claim says registered waiters obtain the mutex in FIFO
order and that a waiter handed the lock completes its `lock()` call.
After the very first acquisition (thread 10, fast path, which succeeds)
the waitlist OwnedLock's `guardCreated` latch is set and never cleared,
so thread 20's `lock()` spins forever acquiring the waitlist lock (it
never reaches the waitlist), and even thread 10's own unlock spins
forever at the same point — no handoff or FIFO handover can ever
happen, for any amount of fuel. -/
theorem k410_c3_mutex_lock_after_first_use_diverges :
    mutexLockFuel 5 freshMutex (some 10) 100 = some mutexAfterFirstLock ∧
    mutexAfterFirstLock.mutexLock.owner = some 10 ∧
    mutexAfterFirstLock.waitLock = { status := false, owner := none, guardCreated := true } ∧
    (∀ fuel, mutexLockFuel fuel mutexAfterFirstLock (some 20) 101 = none) ∧
    (∀ fuel, mutexUnlockFuel fuel mutexAfterFirstLock (some 10) = none) := by
  refine ⟨rfl, rfl, rfl, ?_, ?_⟩
  · intro fuel
    cases fuel with
    | zero => rfl
    | succ n => rfl
  · intro fuel
    cases fuel with
    | zero => rfl
    | succ n => rfl

/-- C4: the claim says the frame-allocator invariant (`bytes_free` =
PAGE_SIZE · #FREE-frames − reservations) holds right after
`initFrameAllocator`.  On the two-frame region [0x1000, 0x3000) the
init loop marks only the entry for `start` (it reuses
`LogicalAddress(start)` inside the loop), so exactly one frame is FREE
while `bytes_free` is set to `end - start` = 0x2000, and the invariant
is already false with zero reservations. -/
theorem k410_c4_init_breaks_invariant :
    initFrameAllocator framePg0 0x1000 0x3000 = some frameAfterInit ∧
    frameAfterInit.bytesFree = 0x2000 ∧
    freeFrameCount frameAfterInit = 1 ∧
    frameInvariant frameAfterInit 0 = false := by
  refine ⟨rfl, by decide, by decide, by decide⟩

/-- C5 counterexample: the claim says a page whose table or entry is
absent counts toward the range being unmapped.  On the all-empty
directory and the one-page range [0, 1), `isUnmappedAddr` returns
false, while the predicate built from the claim's words (absent-or-
unaccessed) returns true — so the claimed iff fails at this input. -/
theorem k410_c5_absent_entry_counts_mapped :
    isUnmappedAddr emptyPaging 0 1 = false ∧
    specIsUnmappedAddr emptyPaging 0 1 = true := by
  refine ⟨by decide, by decide⟩

/-- C5 (amended): `isUnmappedAddr(addr, len)` returns true iff every
page of the walked range yields a present page entry whose accessed bit
is clear; an absent page table or page entry makes the result false. -/
theorem k410_c5_unmapped_iff (pg : PagingState) (addr len : Nat) :
    isUnmappedAddr pg addr len = true ↔
      ∀ p ∈ foreachPageIn addr (addr + len),
        ∃ e, getPageFlags pg p = some e ∧ pageAccessed e = false := by
  unfold isUnmappedAddr
  rw [List.all_eq_true]
  constructor
  · intro h p hp
    have hx := h p hp
    cases he : getPageFlags pg p with
    | none => rw [he] at hx; exact absurd hx (by simp)
    | some e =>
        rw [he] at hx
        exact ⟨e, rfl, by simpa using hx⟩
  · intro h p hp
    obtain ⟨e, he, hacc⟩ := h p hp
    rw [he]
    simpa using hacc

/-- C6: the claim says a failed page mapping makes `mapMemoryRange`
return the last successfully mapped address as an error.  With a
strategy failing on page 0x1000 over [0, 0x2000), the code as written
discards the `Err(addr - 1)` value (the match arm has no `return`), so
it returns `Ok(0x200000)` — the initial physical address — as if the
whole range had been mapped; the variant that returns the error value,
as the claim and the function's doc comment describe, yields
`Err(0xFFF)`, the last byte successfully mapped. -/
theorem k410_c6_map_range_error_discarded :
    (mapMemoryRange mapFailAlloc emptyPaging 0 0x2000 1).2 = .ok 0x200000 ∧
    (mapMemoryRangeIntended mapFailAlloc emptyPaging 0 0x2000 1).2 = .error 0xFFF := by
  refine ⟨rfl, rfl⟩

/-- C7: the claim says `descheduleThread` clears the flag, removes the
thread, advances `next` when the removed thread was the cursor target,
returns Ok and always terminates.  On the ring [0, 1] with the cursor on
thread 0: descheduling thread 0 (the cursor) never returns for any fuel,
because the inner `getNextThread` re-enters `getSchedule` while the
schedule lock is held and `waitForLockWith` spins on the `guardCreated`
latch; descheduling thread 1 (not the cursor) does clear the flag,
unlink the thread and return Ok, and descheduling the unscheduled
thread 7 fails as claimed. -/
theorem k410_c7_deschedule_cursor_never_returns :
    (∀ fuel, descheduleThreadFuel fuel sched0 (some 5) 0 = none) ∧
    ((descheduleThreadFuel 9 sched0 (some 5) 1).map (fun p => p.2) = some .ok) ∧
    ((descheduleThreadFuel 9 sched0 (some 5) 1).map
        (fun p => (p.1.scheduled 1, (p.1.queue.link 1).inQueue, p.1.next)) =
      some (false, false, some 0)) ∧
    ((descheduleThreadFuel 9 sched0 (some 5) 7).map (fun p => p.2) = some .err) := by
  refine ⟨?_, rfl, rfl, rfl⟩
  intro fuel
  cases fuel with
  | zero => rfl
  | succ n => rfl

/-- C8: with the cond's waitlist lock held, `signalCond` does nothing on
an empty queue; otherwise it removes the head node from the queue first,
then sets its `doNotDeschedule` flag, then (when the node's thread
pointer is non-null) calls `scheduleThread` — in exactly that order —
and the waiter side of `waitForCond` only ever inserts its node, never
removes it. -/
theorem k410_c8_signal_order (c : CondState) (node h : Nat) (t : Option Nat) :
    (c.queue.front = none → signalCond c = (c, [])) ∧
    (c.queue.front = some h →
        ((signalCond c).1.queue.link h).inQueue = false ∧
        (signalCond c).1.doNotDeschedule h = true ∧
        (signalCond c).2 =
          [CondEvent.removeNode h, CondEvent.setFlag h] ++
            (match c.nodeThread h with
             | none => []
             | some t' => [CondEvent.sched t'])) ∧
    (∀ k, CondEvent.removeNode k ∉ (condWaitRegister c node t).2) := by
  refine ⟨?_, ?_, ?_⟩
  · intro hf
    simp [signalCond, hf]
  · intro hf
    refine ⟨?_, ?_, ?_⟩
    · simp only [signalCond, hf, signalAndRemoveQueueNode]
      cases hth : c.nodeThread h with
      | none => simpa using QState.remove_link_inQueue c.queue h
      | some t' => simpa using QState.remove_link_inQueue c.queue h
    · simp only [signalCond, hf, signalAndRemoveQueueNode]
      cases hth : c.nodeThread h with
      | none => simp
      | some t' => simp
    · simp only [signalCond, hf, signalAndRemoveQueueNode]
      cases hth : c.nodeThread h with
      | none => simp [hth]
      | some t' => simp [hth]
  · intro k
    simp [condWaitRegister]

/-- C8 witness: the theorem applied to the one-waiter cond `condDemo`
(node 7, thread 3). -/
theorem k410_c8_signal_order_witness :
    ((signalCond condDemo).1.queue.link 7).inQueue = false ∧
    (signalCond condDemo).1.doNotDeschedule 7 = true ∧
    (signalCond condDemo).2 =
      [CondEvent.removeNode 7, CondEvent.setFlag 7, CondEvent.sched 3] := by
  have h := (k410_c8_signal_order condDemo 0 7 none).2.1 rfl
  exact ⟨h.1, h.2.1, by simpa using h.2.2⟩

/-- C9: once `guardCreated` is set, no operation resets it — dropping
the guard clears the owner and unlocks the status but keeps the latch,
`transferLockTo` keeps it, `tryLock` never clears it — and every
`tryLock` on a latched lock takes the Err branch (in particular when the
status is unlocked and the owner null, as the witness instantiates). -/
theorem k410_c9_guard_created_latch (l : LockState) (c : Option Nat) (t : Nat)
    (h : l.guardCreated = true) :
    (dropGuard l).owner = none ∧
    (dropGuard l).status = false ∧
    (dropGuard l).guardCreated = true ∧
    (transferLockTo l t).guardCreated = true ∧
    (tryLock l c).1.guardCreated = true ∧
    (∃ o, (tryLock l c).2 = .err o) := by
  refine ⟨rfl, rfl, h, h, ?_, ?_⟩
  · unfold tryLock
    cases hs : l.status <;> simp [hs, h]
  · unfold tryLock
    cases hs : l.status <;> simp [hs, h]

/-- C9 witness: the theorem at a latched lock that is unlocked with a
null owner. -/
theorem k410_c9_guard_created_latch_witness :
    (dropGuard { status := false, owner := none, guardCreated := true }).owner = none ∧
    (dropGuard { status := false, owner := none, guardCreated := true }).status = false ∧
    (dropGuard { status := false, owner := none, guardCreated := true }).guardCreated = true ∧
    (transferLockTo { status := false, owner := none, guardCreated := true } 4).guardCreated
      = true ∧
    (tryLock { status := false, owner := none, guardCreated := true } (some 3)).1.guardCreated
      = true ∧
    (∃ o, (tryLock { status := false, owner := none, guardCreated := true } (some 3)).2
      = .err o) :=
  k410_c9_guard_created_latch { status := false, owner := none, guardCreated := true }
    (some 3) 4 rfl

/-- C10: `freeFrame` halts at its leading alignment assertion exactly
for non-page-aligned frames — reaching neither the free-bit path nor the
logged outside-region path — and for page-aligned frames the assertion
never fires: the call proceeds to one of the two normal branches. -/
theorem k410_c10_free_frame_alignment_assert (fa : FrameAlloc) (frame : Nat) :
    (frame % PAGE_SIZE ≠ 0 → freeFrame fa frame = .error ()) ∧
    (frame % PAGE_SIZE = 0 → ∃ r, freeFrame fa frame = .ok r) := by
  constructor
  · intro h
    unfold freeFrame isPageAligned
    simp [h]
  · intro h
    unfold freeFrame isPageAligned
    simp only [h]
    by_cases hr : fa.regionStart ≤ frame ∧ frame < fa.regionEnd
    · simp [hr]
    · simp [hr]

/-- C10 witness: the theorem at a concrete allocator state, for the
unaligned frame 5 and the aligned frame 0x1000. -/
theorem k410_c10_free_frame_alignment_assert_witness :
    freeFrame frameDummy 5 = .error () ∧ (∃ r, freeFrame frameDummy 0x1000 = .ok r) :=
  ⟨(k410_c10_free_frame_alignment_assert frameDummy 5).1 (by decide),
   (k410_c10_free_frame_alignment_assert frameDummy 0x1000).2 (by decide)⟩

end K410
